import Mathlib

/-!
Shallow embedding of the two-LLM expense pipeline
(backend/llm/pipeline.py, backend/llm/client.py, backend/llm/prompts.py,
backend/llm/schemas.py).

Backend calls (`generate_structured`) are abstracted as `Except`-valued
parameters: `Except.ok j` models the backend returning decoded JSON `j`,
`Except.error e` models an exception whose Python `str()` is `e`.
The wall clock (`datetime.now()`) is threaded as an explicit string
parameter.  Python dictionaries decoded from JSON are modelled as
association lists with unique keys (json.loads produces a dict, so keys
are unique in every realizable value).
-/

/-- JSON values as returned by Python `json.loads`.  Numbers are modelled
as rationals (no claim depends on float rounding). -/
inductive Json where
  | null : Json
  | bool (b : Bool) : Json
  | num (q : Rat) : Json
  | str (s : String) : Json
  | arr (elems : List Json) : Json
  | obj (fields : List (String × Json)) : Json

/-- First-match association lookup on the fields of a JSON object.
Keys of a Python dict are unique, so first-match agrees with dict lookup
on every realizable value. -/
def lookupKey : List (String × Json) → String → Option Json
  | [], _ => none
  | (k, v) :: rest, key => if k == key then some v else lookupKey rest key

/-- Python `d[key] = v` on a dict: overwrite the key if present, else append. -/
def setKey : List (String × Json) → String → Json → List (String × Json)
  | [], key, v => [(key, v)]
  | (k, w) :: rest, key, v =>
      if k == key then (key, v) :: rest else (k, w) :: setKey rest key v

/-- Modelled Python error message for calling `.get` on a non-dict value
(Python raises AttributeError; the exact message names the concrete type,
which no claim depends on, so one message stands for them all). -/
def pyNoGetMsg : String := "AttributeError: object has no attribute get"

/-- Modelled Python error message for string-keyed item assignment on a
non-dict value (TypeError; exact wording varies by type, no claim depends
on it). -/
def pyItemAssignMsg : String := "TypeError: object does not support item assignment"

/-- Python `x.get(key, default)`: succeeds on dicts, raises on anything else. -/
def pyGet (j : Json) (key : String) (default : Json) : Except String Json :=
  match j with
  | .obj kvs => .ok ((lookupKey kvs key).getD default)
  | _ => .error pyNoGetMsg

/-- Python `==` between a value decoded from JSON and a string literal:
true exactly for the equal string (no cross-type equality with `str`). -/
def pyEqStr (j : Json) (s : String) : Bool :=
  match j with
  | .str t => t == s
  | _ => false

/-- Python truthiness of a value decoded from JSON. -/
def pyTruthy : Json → Bool
  | .null => false
  | .bool b => b
  | .num q => q != 0
  | .str s => s != ""
  | .arr xs => !xs.isEmpty
  | .obj kvs => !kvs.isEmpty

/-- Python `str()` of a value decoded from JSON, as used by f-strings and
`str.format`.  Number rendering is simplified (no claim inspects a
formatted number). -/
def pyStrNum (q : Rat) : String :=
  if q.den == 1 then toString q.num else toString q.num ++ "/" ++ toString q.den

mutual

def pyStr : Json → String
  | .null => "None"
  | .bool true => "True"
  | .bool false => "False"
  | .num q => pyStrNum q
  | .str s => s
  | .arr xs => "[" ++ pyStrList xs ++ "]"
  | .obj kvs => "\x7b" ++ pyStrFields kvs ++ "\x7d"

/-- Python `repr()` (used for elements nested inside containers). -/
def pyRepr : Json → String
  | .str s => "\x27" ++ s ++ "\x27"
  | j => pyStr j

def pyStrList : List Json → String
  | [] => ""
  | [x] => pyRepr x
  | x :: rest => pyRepr x ++ ", " ++ pyStrList rest

def pyStrFields : List (String × Json) → String
  | [] => ""
  | [(k, v)] => "\x27" ++ k ++ "\x27: " ++ pyRepr v
  | (k, v) :: rest => "\x27" ++ k ++ "\x27: " ++ pyRepr v ++ ", " ++ pyStrFields rest

end

/-- A system/user prompt pair (the dict returned by the prompt builders). -/
structure Prompts where
  system : String
  user : String
deriving DecidableEq

/-- `EXTRACTION_SYSTEM_PROMPT` from backend/llm/prompts.py. -/
def EXTRACTION_SYSTEM_PROMPT : String :=
  "You are an expense tracking assistant. Your job is to extract expense information from user input.\n\nExtract the following information:\n1. Amount: The monetary value (convert words to numbers if needed)\n2. Category: Classify into one of: food, transportation, entertainment, utilities, housing, healthcare, shopping, education, personal, other\n3. Description: A brief summary of what the expense was for\n4. Date: The date of the expense (default to today if not specified)\n\nUser input can be text or transcribed speech. Handle colloquialisms and informal language.\n\nExamples:\n- \"I spent 50 dollars on groceries yesterday\" → amount: 50, category: food, description: groceries, date: yesterday\n- \"Uber to work was fifteen bucks\" → amount: 15, category: transportation, description: Uber to work, date: today\n- \"Movie tickets twenty five\" → amount: 25, category: entertainment, description: movie tickets, date: today\n\nAlways respond with valid JSON matching the schema provided.\n"

/-- `VALIDATION_SYSTEM_PROMPT` from backend/llm/prompts.py. -/
def VALIDATION_SYSTEM_PROMPT : String :=
  "You are a data validation assistant for an expense tracking system.\n\nYour job is to:\n1. Verify that extracted expense data is accurate and reasonable\n2. Normalize categories to standard values\n3. Clean and improve descriptions\n4. Validate date formats\n5. Check that amounts are realistic\n\nStandard categories: food, transportation, entertainment, utilities, housing, healthcare, shopping, education, personal, other\n\nIf data is invalid, explain why. If valid, provide the cleaned version.\n\nAlways respond with valid JSON matching the schema provided.\n"

/-- `EXTRACTION_USER_PROMPT_TEMPLATE.format(user_input=..., today_date=...)`. -/
def extractionUserText (user_input today_date : String) : String :=
  "Extract expense information from this input:\n\nUser input: \"" ++ user_input ++
  "\"\n\nToday\x27s date: " ++ today_date ++
  "\n\nExtract: amount, category, description, and date. If any information is missing or unclear, make your best guess based on context and set confidence accordingly.\n\nRespond with valid JSON only."

/-- `VALIDATION_USER_PROMPT_TEMPLATE.format(...)`; each placeholder renders
its value with Python `str`. -/
def validationUserText (amount category description date : Json) (original_input : String) : String :=
  "Validate and clean this extracted expense data:\n\nExtracted data:\n- Amount: " ++ pyStr amount ++
  "\n- Category: " ++ pyStr category ++
  "\n- Description: " ++ pyStr description ++
  "\n- Date: " ++ pyStr date ++
  "\n\nOriginal input: \"" ++ original_input ++
  "\"\n\nCheck if:\n1. Amount is a positive number and reasonable (not too large or small)\n2. Category matches one of the standard categories\n3. Description is clear and concise\n4. Date is in valid ISO format (YYYY-MM-DD)\n\nIf valid, return cleaned data. If invalid, list errors and provide suggestions.\n\nRespond with valid JSON only."

/-- `build_extraction_prompt` from backend/llm/prompts.py.  The source reads
the clock for `today`; the embedding threads that value as the `today`
parameter. -/
def build_extraction_prompt (user_input : String) (today : String) : Prompts :=
  { system := EXTRACTION_SYSTEM_PROMPT
    user := extractionUserText user_input today }

/-- `build_validation_prompt` from backend/llm/prompts.py.  The four
`extracted_data.get(...)` calls raise when `extracted_data` is not a dict,
hence the `Except`. -/
def build_validation_prompt (extracted_data : Json) (original_input : String) :
    Except String Prompts := do
  let amount ← pyGet extracted_data "amount" (.str "unknown")
  let category ← pyGet extracted_data "category" (.str "unknown")
  let description ← pyGet extracted_data "description" (.str "unknown")
  let date ← pyGet extracted_data "date" (.str "unknown")
  pure { system := VALIDATION_SYSTEM_PROMPT
         user := validationUserText amount category description date original_input }

/-- `"; ".join(x)` in Python: joins an iterable of strings.  A string
iterates its characters, a list requires every element to be a string
(TypeError otherwise), a dict iterates its keys; every other value is not
iterable of strings. -/
def strOfJson : Json → Except String String
  | .str s => .ok s
  | _ => .error "TypeError: sequence item: expected str instance"

/-- Collect a list of JSON values as Python strings, failing on the first
non-string element (as `str.join` does). -/
def allStrs : List Json → Except String (List String)
  | [] => .ok []
  | x :: rest => do
      let s ← strOfJson x
      let t ← allStrs rest
      pure (s :: t)

def joinSemicolon : Json → Except String String
  | .str s => .ok (String.intercalate "; " (s.toList.map (fun c => String.mk [c])))
  | .arr xs => (allStrs xs).map (String.intercalate "; ")
  | .obj kvs => .ok (String.intercalate "; " (kvs.map (fun kv => kv.1)))
  | _ => .error "TypeError: can only join an iterable"

/-- `TwoLLMPipeline.extract_expense_data`.  `extResp` models the outcome of
the `generate_structured` call for the extraction prompts; `now` models
`datetime.now().isoformat()`.  Any exception in the try block is wrapped
as `Failed to extract expense data: <cause>`; the metadata assignment
raises when the decoded response is not a dict. -/
def extract_expense_data (extResp : Except String Json)
    (user_input input_method now : String) : Except String Json :=
  let _prompts := build_extraction_prompt user_input now
  match extResp with
  | .error e => .error ("Failed to extract expense data: " ++ e)
  | .ok extracted =>
    match extracted with
    | .obj kvs =>
        .ok (.obj (setKey kvs "metadata" (.obj
          [("input_method", .str input_method),
           ("original_input", .str user_input),
           ("extracted_at", .str now),
           ("stage", .str "extraction")])))
    | _ => .error ("Failed to extract expense data: " ++ pyItemAssignMsg)

/-- `TwoLLMPipeline.validate_expense_data`.  `valResp` models the outcome of
the `generate_structured` call for the validation prompts.  The returned
Bool is true exactly when that backend call was issued (the prompt build
happens first and can raise before the call).  Any exception in the try
block is wrapped as `Failed to validate expense data: <cause>`. -/
def validate_expense_data (valResp : Except String Json) (extracted : Json)
    (original_input now : String) : Except String Json × Bool :=
  match pyGet extracted "extracted_data" (.obj []) with
  | .error e => (.error ("Failed to validate expense data: " ++ e), false)
  | .ok ed =>
    match build_validation_prompt ed original_input with
    | .error e => (.error ("Failed to validate expense data: " ++ e), false)
    | .ok _prompts =>
      match valResp with
      | .error e => (.error ("Failed to validate expense data: " ++ e), true)
      | .ok validated =>
        match (do
            let ed2 ← pyGet extracted "extracted_data" (.obj [])
            pyGet ed2 "confidence" (.num 0)) with
        | .error e => (.error ("Failed to validate expense data: " ++ e), true)
        | .ok conf =>
          match validated with
          | .obj vkvs =>
              (.ok (.obj (setKey vkvs "metadata" (.obj
                [("validated_at", .str now),
                 ("stage", .str "validation"),
                 ("extraction_confidence", conf)]))), true)
          | _ => (.error ("Failed to validate expense data: " ++ pyItemAssignMsg), true)

/-- The final `result` dict assembled by `process_expense_input` on the
success path (lines 160-168 of pipeline.py). -/
def assembleResult (extracted validated : Json)
    (user_input input_method now : String) : Except String Json := do
  let ed ← pyGet extracted "extracted_data" (.obj [])
  let vd ← pyGet validated "validated_data" (.obj [])
  let sugg ← pyGet validated "suggestions" (.obj [])
  let ed2 ← pyGet extracted "extracted_data" (.obj [])
  let conf ← pyGet ed2 "confidence" (.num 0)
  pure (.obj
    [("raw_input", .str user_input),
     ("input_method", .str input_method),
     ("extracted_data", ed),
     ("validated_data", vd),
     ("suggestions", sugg),
     ("confidence", conf),
     ("processed_at", .str now)])

/-- The tuple `(success, validated_data, error_message)` returned by
`process_expense_input`, plus a flag recording whether the validation
stage backend call was issued. -/
structure PipelineOutput where
  success : Bool
  data : Option Json
  error : Option String
  validationCalled : Bool

/-- `TwoLLMPipeline.process_expense_input`: the complete two-stage
pipeline.  `extResp` and `valResp` model the two backend responses; the
outer try/except turns any uncaught exception into
`(False, None, str(e))`. -/
def process_expense_input (extResp valResp : Except String Json)
    (user_input input_method now : String) : PipelineOutput :=
  match extract_expense_data extResp user_input input_method now with
  | .error e => ⟨false, none, some e, false⟩
  | .ok extracted =>
    match pyGet extracted "intent" (.str "unknown") with
    | .error e => ⟨false, none, some e, false⟩
    | .ok intent =>
      if pyEqStr intent "unknown" then
        ⟨false, none, some "Could not determine intent from input", false⟩
      else if !(pyEqStr intent "add_expense") then
        ⟨false, none,
         some ("This pipeline only handles expenses, got intent: " ++ pyStr intent), false⟩
      else
        match validate_expense_data valResp extracted user_input now with
        | (.error e, called) => ⟨false, none, some e, called⟩
        | (.ok validated, called) =>
          match pyGet validated "is_valid" (.bool false) with
          | .error e => ⟨false, none, some e, called⟩
          | .ok isv =>
            if !(pyTruthy isv) then
              match pyGet validated "errors" (.arr [.str "Unknown validation error"]) with
              | .error e => ⟨false, none, some e, called⟩
              | .ok errs =>
                match joinSemicolon errs with
                | .error e => ⟨false, none, some e, called⟩
                | .ok joined =>
                    ⟨false, none, some ("Validation failed: " ++ joined), called⟩
            else
              match assembleResult extracted validated user_input input_method now with
              | .error e => ⟨false, none, some e, called⟩
              | .ok result => ⟨true, some result, none, called⟩

/-- Outcome of one `generate_structured` call: the returned (or raised)
value, the number of `generate` calls issued, and the error-log lines
written. -/
structure GenStructuredOutcome where
  result : Except String Json
  generateCalls : Nat
  errorLog : List String

/-- The `full_prompt` built by `generate_structured` (identical in
`OllamaClient` and `GroqClient`): the caller prompt, the JSON-only
instruction, and the dumped schema when one is given (`schemaDump` stands
for `json.dumps(schema, indent=2)`). -/
def fullPrompt (prompt : String) (schemaDump : Option String) : String :=
  let base := prompt ++ "\n\nRespond with valid JSON only."
  match schemaDump with
  | some s => base ++ "\n\nJSON Schema:\n" ++ s
  | none => base

/-- `generate_structured` (OllamaClient lines 92-117, GroqClient lines
169-190; both bodies are the same modulo the transport).  `gen` models the
`generate` method: applied to the full prompt it yields the backend text
or raises; `decode` models `json.loads`: decoded JSON or the `str()` of
the `JSONDecodeError`.  On decode failure the method logs the raw
response and raises `ValueError` built from the decode error; exactly one
`generate` call is issued in every path. -/
def generate_structured (decode : String → Except String Json)
    (gen : String → Except String String)
    (prompt : String) (_system_prompt : Option String)
    (schemaDump : Option String) : GenStructuredOutcome :=
  let fp := fullPrompt prompt schemaDump
  match gen fp with
  | .error e => { result := .error e, generateCalls := 1, errorLog := [] }
  | .ok response =>
    match decode response with
    | .ok j => { result := .ok j, generateCalls := 1, errorLog := [] }
    | .error e =>
      { result := .error ("Invalid JSON response from LLM: " ++ e)
        generateCalls := 1
        errorLog := ["Failed to parse JSON response: " ++ response] }

/-- The configuration fields read by the client factory. -/
structure LLMSettings where
  LLM_PROVIDER : String
  GROQ_API_KEY : Option String

/-- The backend variants the factory can return. -/
inductive LLMClientKind where
  | ollama : LLMClientKind
  | groq : LLMClientKind
deriving DecidableEq

/-- The exception kinds `get_llm_client` can raise. -/
inductive FactoryError where
  | valueError (msg : String) : FactoryError
  | notImplementedError (msg : String) : FactoryError
deriving DecidableEq

/-- Python `not settings.GROQ_API_KEY`: true for an unset (None) or empty
key. -/
def groqKeyFalsy : Option String → Bool
  | none => true
  | some s => s == ""

/-- Python `str.lower()` as applied to the provider name, modelled as a
character-wise map (agrees with `String.toLower`). -/
def pyLower (s : String) : String := String.mk (s.toList.map Char.toLower)

/-- `get_llm_client` (client.py lines 197-211) together with the
credential check in `GroqClient.__init__` (lines 123-129). -/
def get_llm_client (s : LLMSettings) : Except FactoryError LLMClientKind :=
  let provider := pyLower s.LLM_PROVIDER
  if provider == "ollama" then .ok .ollama
  else if provider == "groq" then
    if groqKeyFalsy s.GROQ_API_KEY then .error (.valueError "GROQ_API_KEY not configured")
    else .ok .groq
  else if provider == "openai" then
    .error (.notImplementedError "OpenAI client not yet implemented")
  else .error (.valueError ("Unknown LLM provider: " ++ provider))

/-- Type checks for the JSON-Schema types used by
`EXPENSE_VALIDATION_SCHEMA` (schemas.py lines 146-199). -/
def isJsonNumber : Json → Bool
  | .num _ => true
  | _ => false

def isJsonString : Json → Bool
  | .str _ => true
  | _ => false

def isJsonBool : Json → Bool
  | .bool _ => true
  | _ => false

/-- The `validated_data` subschema: an object with required numeric
`amount` and string `category`, `description`, `date`. -/
def validatedDataOk : Json → Bool
  | .obj kvs =>
      (match lookupKey kvs "amount" with | some v => isJsonNumber v | none => false) &&
      (match lookupKey kvs "category" with | some v => isJsonString v | none => false) &&
      (match lookupKey kvs "description" with | some v => isJsonString v | none => false) &&
      (match lookupKey kvs "date" with | some v => isJsonString v | none => false)
  | _ => false

/-- The `errors` subschema: an array of strings. -/
def errorsOk : Json → Bool
  | .arr xs => xs.all isJsonString
  | _ => false

/-- The `suggestions` subschema: an object whose `category` and
`description`, when present, are strings. -/
def suggestionsOk : Json → Bool
  | .obj kvs =>
      (match lookupKey kvs "category" with | some v => isJsonString v | none => true) &&
      (match lookupKey kvs "description" with | some v => isJsonString v | none => true)
  | _ => false

/-- `EXPENSE_VALIDATION_SCHEMA`: an object with required boolean
`is_valid`, required `validated_data`, required `errors`, and optional
`suggestions`; extra properties are allowed (JSON-Schema default). -/
def satisfiesValidationSchema : Json → Bool
  | .obj kvs =>
      (match lookupKey kvs "is_valid" with | some v => isJsonBool v | none => false) &&
      (match lookupKey kvs "validated_data" with | some v => validatedDataOk v | none => false) &&
      (match lookupKey kvs "errors" with | some v => errorsOk v | none => false) &&
      (match lookupKey kvs "suggestions" with | some v => suggestionsOk v | none => true)
  | _ => false

/-- Pure observation of a field of a JSON object (used to state claims
about results; not part of the embedded code, which uses `pyGet`). -/
def jField (j : Json) (key : String) : Option Json :=
  match j with
  | .obj kvs => lookupKey kvs key
  | _ => none

/-- True when an optional field value is an object or absent (the shape of
`extracted_data` under which the validation stage can run at all). -/
def isObjOrAbsent : Option Json → Bool
  | none => true
  | some (.obj _) => true
  | some _ => false

/-- Substring occurrence test, used to formalise an error message
carrying a piece of text. -/
def containsSubstr (needle hay : String) : Bool :=
  hay.toList.tails.any (fun t => needle.toList.isPrefixOf t)

/-- Field observations used to state the claims: the `extracted_data`
object of an extraction result (the code default is an empty dict). -/
def edOf (ekvs : List (String × Json)) : Json :=
  (lookupKey ekvs "extracted_data").getD (.obj [])

/-- The confidence the pipeline reports: the `confidence` entry of the
extraction result under `extracted_data`, defaulting to 0 when either key
is absent. -/
def confOf (ekvs : List (String × Json)) : Json :=
  match edOf ekvs with
  | .obj l => (lookupKey l "confidence").getD (.num 0)
  | _ => .num 0

/-- Modelled from the behavior of Python `json.loads` on the concrete
input "hello": it raises `json.JSONDecodeError` whose `str()` is exactly
"Expecting value: line 1 column 1 (char 0)"; the message of the raised
decode error never includes the document text itself. -/
def jsonLoadsNonJson : String → Except String Json :=
  fun _ => .error "Expecting value: line 1 column 1 (char 0)"

theorem lookupKey_setKey_ne (kvs : List (String × Json)) (k key : String) (v : Json)
    (h : (k == key) = false) : lookupKey (setKey kvs k v) key = lookupKey kvs key := by
  induction kvs with
  | nil => simp [setKey, lookupKey, h]
  | cons hd tl ih =>
    obtain ⟨k0, v0⟩ := hd
    by_cases hk : (k0 == k) = true
    · have hk0 : (k0 == key) = false := by
        have h1 : k0 = k := by simpa using hk
        subst h1; exact h
      simp [setKey, hk, lookupKey, h, hk0]
    · have hk' : (k0 == k) = false := by simpa using hk
      simp only [setKey, hk', Bool.false_eq_true, if_false, lookupKey]
      by_cases hk0 : (k0 == key) = true
      · simp [hk0]
      · have hk0' : (k0 == key) = false := by simpa using hk0
        simp [hk0', ih]

theorem extract_expense_data_obj (ekvs : List (String × Json)) (ui im now : String) :
    extract_expense_data (.ok (.obj ekvs)) ui im now
      = .ok (.obj (setKey ekvs "metadata" (.obj
          [("input_method", .str im),
           ("original_input", .str ui),
           ("extracted_at", .str now),
           ("stage", .str "extraction")]))) := rfl

theorem build_validation_prompt_obj (l : List (String × Json)) (orig : String) :
    build_validation_prompt (.obj l) orig
      = .ok { system := VALIDATION_SYSTEM_PROMPT
              user := validationUserText
                ((lookupKey l "amount").getD (.str "unknown"))
                ((lookupKey l "category").getD (.str "unknown"))
                ((lookupKey l "description").getD (.str "unknown"))
                ((lookupKey l "date").getD (.str "unknown")) orig } := rfl

theorem validate_expense_data_ok (vkvs ekvs : List (String × Json)) (M : Json)
    (ui now : String) (hed : isObjOrAbsent (lookupKey ekvs "extracted_data") = true) :
    validate_expense_data (.ok (.obj vkvs)) (.obj (setKey ekvs "metadata" M)) ui now
      = (.ok (.obj (setKey vkvs "metadata" (.obj
          [("validated_at", .str now),
           ("stage", .str "validation"),
           ("extraction_confidence", confOf ekvs)]))), true) := by
  have hmd : lookupKey (setKey ekvs "metadata" M) "extracted_data" = lookupKey ekvs "extracted_data" :=
    lookupKey_setKey_ne _ _ _ _ (by decide)
  unfold validate_expense_data
  simp only [pyGet, hmd]
  rcases h : lookupKey ekvs "extracted_data" with _ | j
  · simp [build_validation_prompt_obj, lookupKey, confOf, edOf, h, Bind.bind, Except.bind]
  · rcases j with _ | b | q | s | xs | l
    all_goals simp [isObjOrAbsent, h] at hed
    simp [build_validation_prompt_obj, confOf, edOf, h, Bind.bind, Except.bind]

theorem assembleResult_eval (ekvs vkvs : List (String × Json)) (M M2 : Json)
    (ui im now : String)
    (hed : isObjOrAbsent (lookupKey ekvs "extracted_data") = true) :
    assembleResult (.obj (setKey ekvs "metadata" M)) (.obj (setKey vkvs "metadata" M2)) ui im now
      = .ok (.obj
          [("raw_input", .str ui),
           ("input_method", .str im),
           ("extracted_data", edOf ekvs),
           ("validated_data", (lookupKey vkvs "validated_data").getD (.obj [])),
           ("suggestions", (lookupKey vkvs "suggestions").getD (.obj [])),
           ("confidence", confOf ekvs),
           ("processed_at", .str now)]) := by
  have h1 : lookupKey (setKey ekvs "metadata" M) "extracted_data" = lookupKey ekvs "extracted_data" :=
    lookupKey_setKey_ne _ _ _ _ (by decide)
  have h2 : lookupKey (setKey vkvs "metadata" M2) "validated_data" = lookupKey vkvs "validated_data" :=
    lookupKey_setKey_ne _ _ _ _ (by decide)
  have h3 : lookupKey (setKey vkvs "metadata" M2) "suggestions" = lookupKey vkvs "suggestions" :=
    lookupKey_setKey_ne _ _ _ _ (by decide)
  unfold assembleResult
  simp only [pyGet, h1, h2, h3]
  rcases h : lookupKey ekvs "extracted_data" with _ | j
  · simp [edOf, confOf, h, lookupKey, Bind.bind, Except.bind, Pure.pure, Except.pure]
  · rcases j with _ | b | q | s | xs | l
    all_goals simp [isObjOrAbsent, h] at hed
    simp [edOf, confOf, h, Bind.bind, Except.bind, Pure.pure, Except.pure]

theorem process_success (ekvs vkvs : List (String × Json)) (ui im now : String)
    (hint : lookupKey ekvs "intent" = some (.str "add_expense"))
    (hed : isObjOrAbsent (lookupKey ekvs "extracted_data") = true)
    (hisv : pyTruthy ((lookupKey vkvs "is_valid").getD (.bool false)) = true) :
    process_expense_input (.ok (.obj ekvs)) (.ok (.obj vkvs)) ui im now
      = ⟨true, some (.obj
          [("raw_input", .str ui),
           ("input_method", .str im),
           ("extracted_data", edOf ekvs),
           ("validated_data", (lookupKey vkvs "validated_data").getD (.obj [])),
           ("suggestions", (lookupKey vkvs "suggestions").getD (.obj [])),
           ("confidence", confOf ekvs),
           ("processed_at", .str now)]), none, true⟩ := by
  have hi : lookupKey (setKey ekvs "metadata" (.obj
          [("input_method", .str im),
           ("original_input", .str ui),
           ("extracted_at", .str now),
           ("stage", .str "extraction")])) "intent" = lookupKey ekvs "intent" :=
    lookupKey_setKey_ne _ _ _ _ (by decide)
  have hv : lookupKey (setKey vkvs "metadata" (.obj
          [("validated_at", .str now),
           ("stage", .str "validation"),
           ("extraction_confidence", confOf ekvs)])) "is_valid" = lookupKey vkvs "is_valid" :=
    lookupKey_setKey_ne _ _ _ _ (by decide)
  unfold process_expense_input
  rw [extract_expense_data_obj]
  simp only [pyGet, hi, hint, Option.getD_some, pyEqStr]
  simp only [show (("add_expense" == "unknown") = false) from by decide,
    show (("add_expense" == "add_expense") = true) from by decide,
    Bool.false_eq_true, if_false, Bool.not_true, Bool.not_false, if_true]
  rw [validate_expense_data_ok _ _ _ _ _ hed]
  simp only [pyGet, hv, hisv, Bool.not_true, Bool.false_eq_true, if_false]
  rw [assembleResult_eval _ _ _ _ _ _ _ hed]

theorem process_extract_error (cause : String) (valResp : Except String Json)
    (ui im now : String) :
    process_expense_input (.error cause) valResp ui im now
      = ⟨false, none, some ("Failed to extract expense data: " ++ cause), false⟩ := rfl

theorem process_unknown_intent (ekvs : List (String × Json)) (valResp : Except String Json)
    (ui im now : String)
    (hu : pyEqStr ((lookupKey ekvs "intent").getD (.str "unknown")) "unknown" = true) :
    process_expense_input (.ok (.obj ekvs)) valResp ui im now
      = ⟨false, none, some "Could not determine intent from input", false⟩ := by
  have hi : lookupKey (setKey ekvs "metadata" (.obj
          [("input_method", .str im),
           ("original_input", .str ui),
           ("extracted_at", .str now),
           ("stage", .str "extraction")])) "intent" = lookupKey ekvs "intent" :=
    lookupKey_setKey_ne _ _ _ _ (by decide)
  unfold process_expense_input
  rw [extract_expense_data_obj]
  simp only [pyGet, hi, hu, if_true]

theorem process_wrong_intent (ekvs : List (String × Json)) (valResp : Except String Json)
    (ui im now : String)
    (hu : pyEqStr ((lookupKey ekvs "intent").getD (.str "unknown")) "unknown" = false)
    (ha : pyEqStr ((lookupKey ekvs "intent").getD (.str "unknown")) "add_expense" = false) :
    process_expense_input (.ok (.obj ekvs)) valResp ui im now
      = ⟨false, none,
         some ("This pipeline only handles expenses, got intent: "
           ++ pyStr ((lookupKey ekvs "intent").getD (.str "unknown"))), false⟩ := by
  have hi : lookupKey (setKey ekvs "metadata" (.obj
          [("input_method", .str im),
           ("original_input", .str ui),
           ("extracted_at", .str now),
           ("stage", .str "extraction")])) "intent" = lookupKey ekvs "intent" :=
    lookupKey_setKey_ne _ _ _ _ (by decide)
  unfold process_expense_input
  rw [extract_expense_data_obj]
  simp only [pyGet, hi, hu, ha, Bool.false_eq_true, if_false, Bool.not_false, if_true]

theorem process_invalid (ekvs vkvs : List (String × Json)) (ui im now : String)
    (hint : lookupKey ekvs "intent" = some (.str "add_expense"))
    (hed : isObjOrAbsent (lookupKey ekvs "extracted_data") = true)
    (hisv : pyTruthy ((lookupKey vkvs "is_valid").getD (.bool false)) = false)
    (jstr : String)
    (hjoin : joinSemicolon ((lookupKey vkvs "errors").getD (.arr [.str "Unknown validation error"]))
      = .ok jstr) :
    process_expense_input (.ok (.obj ekvs)) (.ok (.obj vkvs)) ui im now
      = ⟨false, none, some ("Validation failed: " ++ jstr), true⟩ := by
  have hi : lookupKey (setKey ekvs "metadata" (.obj
          [("input_method", .str im),
           ("original_input", .str ui),
           ("extracted_at", .str now),
           ("stage", .str "extraction")])) "intent" = lookupKey ekvs "intent" :=
    lookupKey_setKey_ne _ _ _ _ (by decide)
  have hv : lookupKey (setKey vkvs "metadata" (.obj
          [("validated_at", .str now),
           ("stage", .str "validation"),
           ("extraction_confidence", confOf ekvs)])) "is_valid" = lookupKey vkvs "is_valid" :=
    lookupKey_setKey_ne _ _ _ _ (by decide)
  have he : lookupKey (setKey vkvs "metadata" (.obj
          [("validated_at", .str now),
           ("stage", .str "validation"),
           ("extraction_confidence", confOf ekvs)])) "errors" = lookupKey vkvs "errors" :=
    lookupKey_setKey_ne _ _ _ _ (by decide)
  unfold process_expense_input
  rw [extract_expense_data_obj]
  simp only [pyGet, hi, hint, Option.getD_some, pyEqStr]
  simp only [show (("add_expense" == "unknown") = false) from by decide,
    show (("add_expense" == "add_expense") = true) from by decide,
    Bool.false_eq_true, if_false, Bool.not_true, Bool.not_false, if_true]
  rw [validate_expense_data_ok _ _ _ _ _ hed]
  simp only [pyGet, hv, he, hisv, Bool.not_false, if_true, hjoin]

theorem extract_ok_inversion (extResp : Except String Json) (ui im now : String)
    (extracted : Json)
    (h : extract_expense_data extResp ui im now = .ok extracted) :
    ∃ ekvs, extResp = .ok (.obj ekvs) ∧
      extracted = .obj (setKey ekvs "metadata" (.obj
          [("input_method", .str im),
           ("original_input", .str ui),
           ("extracted_at", .str now),
           ("stage", .str "extraction")])) := by
  cases extResp with
  | error e => simp [extract_expense_data] at h
  | ok j =>
    cases j with
    | obj ekvs =>
      refine ⟨ekvs, rfl, ?_⟩
      rw [extract_expense_data_obj] at h
      exact (Except.ok.injEq _ _ ▸ h).symm
    | null => simp [extract_expense_data] at h
    | bool b => simp [extract_expense_data] at h
    | num q => simp [extract_expense_data] at h
    | str s => simp [extract_expense_data] at h
    | arr xs => simp [extract_expense_data] at h

theorem pyEqStr_true {j : Json} {s : String} (h : pyEqStr j s = true) : j = .str s := by
  cases j <;> simp [pyEqStr] at h
  subst h; rfl

theorem validate_ok_shape (valResp : Except String Json) (extracted : Json)
    (ui now : String) (validated : Json) (called : Bool)
    (h : validate_expense_data valResp extracted ui now = (.ok validated, called)) :
    ∃ vkvs conf, valResp = .ok (.obj vkvs) ∧
      validated = .obj (setKey vkvs "metadata" (.obj
        [("validated_at", .str now),
         ("stage", .str "validation"),
         ("extraction_confidence", conf)])) := by
  unfold validate_expense_data at h
  split at h
  · simp at h
  · split at h
    · simp at h
    · split at h
      · simp at h
      · split at h
        · simp at h
        · split at h
          · simp only [Prod.mk.injEq, Except.ok.injEq] at h
            exact ⟨_, _, rfl, h.1.symm⟩
          · simp at h

/-- Claim C1 (amended): whenever `process_expense_input` returns with
success true, the extraction stage's result was a dict whose intent is
exactly the string "add_expense", and the validation stage's result was a
dict whose `is_valid` value is truthy under Python truthiness (the code
tests truthiness, not equality with the boolean true). -/
theorem process_success_inversion (extResp valResp : Except String Json)
    (ui im now : String)
    (h : (process_expense_input extResp valResp ui im now).success = true) :
    (∃ ekvs, extResp = .ok (.obj ekvs) ∧
        (lookupKey ekvs "intent").getD (.str "unknown") = .str "add_expense") ∧
    (∃ vkvs, valResp = .ok (.obj vkvs) ∧
        pyTruthy ((lookupKey vkvs "is_valid").getD (.bool false)) = true) := by
  unfold process_expense_input at h
  split at h
  · simp at h
  next extracted hx =>
    obtain ⟨ekvs, hext, hshape⟩ := extract_ok_inversion _ _ _ _ _ hx
    subst hshape
    have hi : lookupKey (setKey ekvs "metadata" (.obj
            [("input_method", .str im),
             ("original_input", .str ui),
             ("extracted_at", .str now),
             ("stage", .str "extraction")])) "intent" = lookupKey ekvs "intent" :=
      lookupKey_setKey_ne _ _ _ _ (by decide)
    split at h
    · simp [pyGet] at h
    next intentv hintv =>
      simp only [pyGet, hi, Except.ok.injEq] at hintv
      split at h
      · simp at h
      · split at h
        · simp at h
        next hne hadd =>
          have hadd' : pyEqStr intentv "add_expense" = true := by
            revert hadd
            cases hp : pyEqStr intentv "add_expense" <;> simp
          have hintent : intentv = .str "add_expense" := pyEqStr_true hadd'
          refine ⟨⟨ekvs, hext, by rw [hintv, hintent]⟩, ?_⟩
          split at h
          · simp at h
          next validated called hval =>
            obtain ⟨vkvs, conf, hvr, hvshape⟩ := validate_ok_shape _ _ _ _ _ _ hval
            subst hvshape
            have hv : lookupKey (setKey vkvs "metadata" (.obj
                    [("validated_at", .str now),
                     ("stage", .str "validation"),
                     ("extraction_confidence", conf)])) "is_valid" = lookupKey vkvs "is_valid" :=
              lookupKey_setKey_ne _ _ _ _ (by decide)
            refine ⟨vkvs, hvr, ?_⟩
            split at h
            next e heq => simp [pyGet] at heq
            next isv hisv =>
              simp only [pyGet, hv, Except.ok.injEq] at hisv
              split at h
              · split at h
                · simp at h
                · split at h
                  · simp at h
                  · simp at h
              next hT =>
                have hT' : pyTruthy isv = true := by
                  revert hT
                  cases hp : pyTruthy isv <;> simp
                rw [hisv]
                exact hT'

theorem allStrs_map_str (ss : List String) :
    allStrs (ss.map Json.str) = Except.ok ss := by
  induction ss with
  | nil => rfl
  | cons a t ih => simp [allStrs, strOfJson, ih, Bind.bind, Except.bind, Pure.pure, Except.pure]

theorem joinSemicolon_strs (ss : List String) :
    joinSemicolon (.arr (ss.map Json.str)) = .ok (String.intercalate "; " ss) := by
  simp [joinSemicolon, allStrs_map_str, Except.map]

theorem process_invalid_general (ekvs vkvs : List (String × Json)) (ui im now : String)
    (hint : lookupKey ekvs "intent" = some (.str "add_expense"))
    (hed : isObjOrAbsent (lookupKey ekvs "extracted_data") = true)
    (hisv : pyTruthy ((lookupKey vkvs "is_valid").getD (.bool false)) = false) :
    process_expense_input (.ok (.obj ekvs)) (.ok (.obj vkvs)) ui im now
      = match joinSemicolon ((lookupKey vkvs "errors").getD (.arr [.str "Unknown validation error"])) with
        | .ok jstr => ⟨false, none, some ("Validation failed: " ++ jstr), true⟩
        | .error e => ⟨false, none, some e, true⟩ := by
  have hi : lookupKey (setKey ekvs "metadata" (.obj
          [("input_method", .str im),
           ("original_input", .str ui),
           ("extracted_at", .str now),
           ("stage", .str "extraction")])) "intent" = lookupKey ekvs "intent" :=
    lookupKey_setKey_ne _ _ _ _ (by decide)
  have hv : lookupKey (setKey vkvs "metadata" (.obj
          [("validated_at", .str now),
           ("stage", .str "validation"),
           ("extraction_confidence", confOf ekvs)])) "is_valid" = lookupKey vkvs "is_valid" :=
    lookupKey_setKey_ne _ _ _ _ (by decide)
  have he : lookupKey (setKey vkvs "metadata" (.obj
          [("validated_at", .str now),
           ("stage", .str "validation"),
           ("extraction_confidence", confOf ekvs)])) "errors" = lookupKey vkvs "errors" :=
    lookupKey_setKey_ne _ _ _ _ (by decide)
  unfold process_expense_input
  rw [extract_expense_data_obj]
  simp only [pyGet, hi, hint, Option.getD_some, pyEqStr]
  simp only [show (("add_expense" == "unknown") = false) from by decide,
    show (("add_expense" == "add_expense") = true) from by decide,
    Bool.false_eq_true, if_false, Bool.not_true, Bool.not_false, if_true]
  rw [validate_expense_data_ok _ _ _ _ _ hed]
  simp only [pyGet, hv, he, hisv, Bool.not_false, if_true]
  cases hj : joinSemicolon ((lookupKey vkvs "errors").getD (.arr [.str "Unknown validation error"])) <;>
    simp [hj]

/-- Claim C7: for every backend failure raised during the extraction stage
(its message `cause`, which includes the malformed-JSON ValueError), the
pipeline returns success false with error "Failed to extract expense
data: " followed by the cause, and the validation stage is never
invoked. -/
theorem extraction_backend_failure_wrapped (cause : String) (valResp : Except String Json)
    (ui im now : String) :
    (process_expense_input (.error cause) valResp ui im now).success = false ∧
    (process_expense_input (.error cause) valResp ui im now).error
      = some ("Failed to extract expense data: " ++ cause) ∧
    (process_expense_input (.error cause) valResp ui im now).validationCalled = false := by
  rw [process_extract_error]; exact ⟨rfl, rfl, rfl⟩

/-- Claim C10: when the extraction response is a dict with no `intent`
key, the pipeline treats the intent as unknown: success false, error
exactly "Could not determine intent from input", validation never
invoked. -/
theorem missing_intent_fails (ekvs : List (String × Json)) (valResp : Except String Json)
    (ui im now : String) (hmiss : lookupKey ekvs "intent" = none) :
    (process_expense_input (.ok (.obj ekvs)) valResp ui im now).success = false ∧
    (process_expense_input (.ok (.obj ekvs)) valResp ui im now).error
      = some "Could not determine intent from input" ∧
    (process_expense_input (.ok (.obj ekvs)) valResp ui im now).validationCalled = false := by
  have hu : pyEqStr ((lookupKey ekvs "intent").getD (.str "unknown")) "unknown" = true := by
    rw [hmiss]; rfl
  rw [process_unknown_intent _ _ _ _ _ hu]; exact ⟨rfl, rfl, rfl⟩

theorem missing_intent_fails_witness :
    (process_expense_input (.ok (.obj [("extracted_data", Json.obj [])])) (.ok (.obj []))
      "i" "text" "t").success = false ∧
    (process_expense_input (.ok (.obj [("extracted_data", Json.obj [])])) (.ok (.obj []))
      "i" "text" "t").error = some "Could not determine intent from input" ∧
    (process_expense_input (.ok (.obj [("extracted_data", Json.obj [])])) (.ok (.obj []))
      "i" "text" "t").validationCalled = false :=
  missing_intent_fails _ (.ok (.obj [])) "i" "text" "t" rfl

/-- Claim C2: for every extraction result (a dict) whose intent is not
`add_expense`, the pipeline returns success false and never issues the
validation-stage call, with error "Could not determine intent from input"
when the intent is (or defaults to) "unknown", and "This pipeline only
handles expenses, got intent: <intent>" otherwise. -/
theorem intent_gating (ekvs : List (String × Json)) (valResp : Except String Json)
    (ui im now : String)
    (hna : pyEqStr ((lookupKey ekvs "intent").getD (.str "unknown")) "add_expense" = false) :
    (process_expense_input (.ok (.obj ekvs)) valResp ui im now).success = false ∧
    (process_expense_input (.ok (.obj ekvs)) valResp ui im now).validationCalled = false ∧
    (process_expense_input (.ok (.obj ekvs)) valResp ui im now).error
      = some (if pyEqStr ((lookupKey ekvs "intent").getD (.str "unknown")) "unknown"
          then "Could not determine intent from input"
          else "This pipeline only handles expenses, got intent: "
            ++ pyStr ((lookupKey ekvs "intent").getD (.str "unknown"))) := by
  by_cases hu : pyEqStr ((lookupKey ekvs "intent").getD (.str "unknown")) "unknown" = true
  · rw [process_unknown_intent _ _ _ _ _ hu]
    simp [hu]
  · have hu2 : pyEqStr ((lookupKey ekvs "intent").getD (.str "unknown")) "unknown" = false := by
      revert hu
      cases hp : pyEqStr ((lookupKey ekvs "intent").getD (.str "unknown")) "unknown" <;> simp
    rw [process_wrong_intent _ _ _ _ _ hu2 hna]
    simp [hu2]

theorem intent_gating_witness :
    (process_expense_input (.ok (.obj [("intent", Json.str "set_budget")])) (.ok (.obj []))
      "i" "text" "t").success = false ∧
    (process_expense_input (.ok (.obj [("intent", Json.str "set_budget")])) (.ok (.obj []))
      "i" "text" "t").validationCalled = false ∧
    (process_expense_input (.ok (.obj [("intent", Json.str "set_budget")])) (.ok (.obj []))
      "i" "text" "t").error
      = some "This pipeline only handles expenses, got intent: set_budget" := by
  have h := intent_gating [("intent", Json.str "set_budget")] (.ok (.obj [])) "i" "text" "t" rfl
  refine ⟨h.1, h.2.1, ?_⟩
  rw [h.2.2]
  simp [lookupKey, pyEqStr, pyStr]

/-- Claim C6: the prompt builders are deterministic: identical arguments
(raw input and the date for extraction; extracted fields and original
input for validation) give identical system/user pairs. -/
theorem prompt_builders_deterministic (x1 x2 d1 d2 : String) (e1 e2 : Json) (o1 o2 : String)
    (hx : x1 = x2) (hd : d1 = d2) (he : e1 = e2) (ho : o1 = o2) :
    build_extraction_prompt x1 d1 = build_extraction_prompt x2 d2 ∧
    build_validation_prompt e1 o1 = build_validation_prompt e2 o2 := by
  subst hx; subst hd; subst he; subst ho; exact ⟨rfl, rfl⟩

theorem prompt_builders_deterministic_witness :
    build_extraction_prompt "lunch 10" "2026-10-12" = build_extraction_prompt "lunch 10" "2026-10-12" ∧
    build_validation_prompt (.obj []) "lunch 10" = build_validation_prompt (.obj []) "lunch 10" :=
  prompt_builders_deterministic _ _ _ _ _ _ _ _ rfl rfl rfl rfl

/-- Claim C4: for every validation response (on an add_expense extraction
whose `extracted_data` is a dict or absent) with `is_valid` false and a
non-empty list of error strings, the pipeline fails with error
"Validation failed: " followed by the errors joined by "; " in order. -/
theorem validation_fail_closed (ekvs vkvs : List (String × Json)) (ui im now : String)
    (ss : List String)
    (hint : lookupKey ekvs "intent" = some (.str "add_expense"))
    (hed : isObjOrAbsent (lookupKey ekvs "extracted_data") = true)
    (hisv : lookupKey vkvs "is_valid" = some (.bool false))
    (herr : lookupKey vkvs "errors" = some (.arr (ss.map Json.str)))
    (_hne : ss ≠ []) :
    (process_expense_input (.ok (.obj ekvs)) (.ok (.obj vkvs)) ui im now).success = false ∧
    (process_expense_input (.ok (.obj ekvs)) (.ok (.obj vkvs)) ui im now).error
      = some ("Validation failed: " ++ String.intercalate "; " ss) := by
  have hf : pyTruthy ((lookupKey vkvs "is_valid").getD (.bool false)) = false := by
    rw [hisv]; rfl
  have hj : joinSemicolon ((lookupKey vkvs "errors").getD (.arr [.str "Unknown validation error"]))
      = .ok (String.intercalate "; " ss) := by
    simp only [herr, Option.getD_some]
    exact joinSemicolon_strs ss
  rw [process_invalid _ _ _ _ _ hint hed hf _ hj]
  exact ⟨rfl, rfl⟩

theorem validation_fail_closed_witness :
    (process_expense_input (.ok (.obj [("intent", Json.str "add_expense")]))
      (.ok (.obj [("is_valid", Json.bool false),
        ("errors", Json.arr [Json.str "amount must be positive", Json.str "bad date"])]))
      "i" "text" "t").success = false ∧
    (process_expense_input (.ok (.obj [("intent", Json.str "add_expense")]))
      (.ok (.obj [("is_valid", Json.bool false),
        ("errors", Json.arr [Json.str "amount must be positive", Json.str "bad date"])]))
      "i" "text" "t").error
      = some "Validation failed: amount must be positive; bad date" := by
  have h := validation_fail_closed [("intent", Json.str "add_expense")]
    [("is_valid", Json.bool false),
     ("errors", Json.arr [Json.str "amount must be positive", Json.str "bad date"])]
    "i" "text" "t" ["amount must be positive", "bad date"] rfl rfl rfl rfl (by simp)
  exact ⟨h.1, by rw [h.2]; rfl⟩

/-- Claim C9: when the validation response is a dict with no `is_valid`
key (on an add_expense extraction whose `extracted_data` is a dict or
absent), the pipeline fails closed; when the `errors` key is also absent
the error is exactly "Validation failed: Unknown validation error". -/
theorem missing_is_valid_fails_closed (ekvs vkvs : List (String × Json)) (ui im now : String)
    (hint : lookupKey ekvs "intent" = some (.str "add_expense"))
    (hed : isObjOrAbsent (lookupKey ekvs "extracted_data") = true)
    (hmiss : lookupKey vkvs "is_valid" = none) :
    (process_expense_input (.ok (.obj ekvs)) (.ok (.obj vkvs)) ui im now).success = false ∧
    (lookupKey vkvs "errors" = none →
      (process_expense_input (.ok (.obj ekvs)) (.ok (.obj vkvs)) ui im now).error
        = some "Validation failed: Unknown validation error") := by
  have hf : pyTruthy ((lookupKey vkvs "is_valid").getD (.bool false)) = false := by
    rw [hmiss]; rfl
  have hgen := process_invalid_general ekvs vkvs ui im now hint hed hf
  constructor
  · rw [hgen]
    cases hj : joinSemicolon ((lookupKey vkvs "errors").getD (.arr [.str "Unknown validation error"])) <;>
      simp [hj]
  · intro he
    rw [hgen, he]
    rfl

theorem missing_is_valid_fails_closed_witness :
    (process_expense_input (.ok (.obj [("intent", Json.str "add_expense")]))
      (.ok (.obj [("validated_data", Json.obj [])])) "i" "text" "t").success = false ∧
    (lookupKey [("validated_data", Json.obj [])] "errors" = none →
      (process_expense_input (.ok (.obj [("intent", Json.str "add_expense")]))
        (.ok (.obj [("validated_data", Json.obj [])])) "i" "text" "t").error
        = some "Validation failed: Unknown validation error") :=
  missing_is_valid_fails_closed [("intent", Json.str "add_expense")]
    [("validated_data", Json.obj [])] "i" "text" "t" rfl rfl rfl

/-- Claim C3: for every validation response satisfying the validation
schema with `is_valid` true, on an add_expense extraction (whose
`extracted_data` is a dict or absent, as required for the validation
stage to run), the pipeline succeeds; the result's `validated_data`
equals the backend's `validated_data` and its `confidence` equals the
extraction's `extracted_data.confidence`, defaulting to 0 when absent. -/
theorem schema_valid_success (ekvs vkvs : List (String × Json)) (ui im now : String)
    (hint : lookupKey ekvs "intent" = some (.str "add_expense"))
    (hed : isObjOrAbsent (lookupKey ekvs "extracted_data") = true)
    (hschema : satisfiesValidationSchema (.obj vkvs) = true)
    (hvalid : lookupKey vkvs "is_valid" = some (.bool true)) :
    (process_expense_input (.ok (.obj ekvs)) (.ok (.obj vkvs)) ui im now).success = true ∧
    ∃ d, (process_expense_input (.ok (.obj ekvs)) (.ok (.obj vkvs)) ui im now).data = some d ∧
      jField d "validated_data" = lookupKey vkvs "validated_data" ∧
      jField d "confidence" = some (confOf ekvs) := by
  have hisv : pyTruthy ((lookupKey vkvs "is_valid").getD (.bool false)) = true := by
    rw [hvalid]; rfl
  have hp := process_success ekvs vkvs ui im now hint hed hisv
  have hvd : ∃ v, lookupKey vkvs "validated_data" = some v := by
    rcases h : lookupKey vkvs "validated_data" with _ | v
    · exfalso
      simp [satisfiesValidationSchema, h] at hschema
    · exact ⟨v, rfl⟩
  obtain ⟨v, hv⟩ := hvd
  rw [hp]
  refine ⟨rfl, _, rfl, ?_, rfl⟩
  show some ((lookupKey vkvs "validated_data").getD (.obj [])) = lookupKey vkvs "validated_data"
  rw [hv]
  rfl

theorem schema_valid_success_witness :
    (process_expense_input
      (.ok (.obj [("intent", Json.str "add_expense"),
        ("extracted_data", Json.obj [("amount", Json.num 50), ("confidence", Json.num (9/10))])]))
      (.ok (.obj [("is_valid", Json.bool true),
        ("validated_data", Json.obj [("amount", Json.num 50), ("category", Json.str "food"),
          ("description", Json.str "groceries"), ("date", Json.str "2024-01-14")]),
        ("errors", Json.arr [])]))
      "I spent 50 dollars on groceries" "text" "t").success = true ∧
    ∃ d, (process_expense_input
      (.ok (.obj [("intent", Json.str "add_expense"),
        ("extracted_data", Json.obj [("amount", Json.num 50), ("confidence", Json.num (9/10))])]))
      (.ok (.obj [("is_valid", Json.bool true),
        ("validated_data", Json.obj [("amount", Json.num 50), ("category", Json.str "food"),
          ("description", Json.str "groceries"), ("date", Json.str "2024-01-14")]),
        ("errors", Json.arr [])]))
      "I spent 50 dollars on groceries" "text" "t").data = some d ∧
      jField d "validated_data"
        = lookupKey [("is_valid", Json.bool true),
            ("validated_data", Json.obj [("amount", Json.num 50), ("category", Json.str "food"),
              ("description", Json.str "groceries"), ("date", Json.str "2024-01-14")]),
            ("errors", Json.arr [])] "validated_data" ∧
      jField d "confidence"
        = some (confOf [("intent", Json.str "add_expense"),
            ("extracted_data", Json.obj [("amount", Json.num 50), ("confidence", Json.num (9/10))])]) :=
  schema_valid_success _ _ "I spent 50 dollars on groceries" "text" "t" rfl rfl rfl rfl

theorem process_success_inversion_witness :
    (∃ ekvs, (Except.ok (Json.obj [("intent", Json.str "add_expense")]) : Except String Json)
        = .ok (.obj ekvs) ∧
      (lookupKey ekvs "intent").getD (.str "unknown") = .str "add_expense") ∧
    (∃ vkvs, (Except.ok (Json.obj [("is_valid", Json.bool true)]) : Except String Json)
        = .ok (.obj vkvs) ∧
      pyTruthy ((lookupKey vkvs "is_valid").getD (.bool false)) = true) :=
  process_success_inversion (.ok (.obj [("intent", Json.str "add_expense")]))
    (.ok (.obj [("is_valid", Json.bool true)])) "i" "text" "t" rfl

/-- Claim C1 counterexample: with extraction response containing intent
add_expense and validation response containing is_valid set to the truthy
string "no", the pipeline succeeds although the validation result's
is_valid is not the boolean true. -/
theorem success_with_nonboolean_is_valid :
    (process_expense_input (.ok (.obj [("intent", Json.str "add_expense")]))
        (.ok (.obj [("is_valid", Json.str "no")])) "i" "text" "t").success = true ∧
    lookupKey [("is_valid", Json.str "no")] "is_valid" = some (Json.str "no") ∧
    Json.str "no" ≠ Json.bool true :=
  ⟨rfl, rfl, fun h => Json.noConfusion h⟩

/-- Claim C5 (amended): when the single backend `generate` call returns
text that the JSON decoder rejects, `generate_structured` raises a
ValueError built from the decode failure's description (not from the raw
response text), writes the raw response to the error log, and issues
exactly one generate call. -/
theorem generate_structured_decode_failure (decode : String → Except String Json)
    (gen : String → Except String String) (prompt : String) (sys : Option String)
    (sd : Option String) (response e : String)
    (hgen : gen (fullPrompt prompt sd) = .ok response)
    (hdec : decode response = .error e) :
    generate_structured decode gen prompt sys sd
      = ⟨.error ("Invalid JSON response from LLM: " ++ e), 1,
         ["Failed to parse JSON response: " ++ response]⟩ := by
  unfold generate_structured
  dsimp only
  rw [hgen]
  dsimp only
  rw [hdec]

theorem generate_structured_decode_failure_witness :
    generate_structured (fun _ => .error "Expecting value: line 1 column 1 (char 0)")
      (fun _ => .ok "x") "p" none none
      = ⟨.error ("Invalid JSON response from LLM: " ++ "Expecting value: line 1 column 1 (char 0)"),
         1, ["Failed to parse JSON response: " ++ "x"]⟩ :=
  generate_structured_decode_failure _ _ "p" none none "x"
    "Expecting value: line 1 column 1 (char 0)" rfl rfl

/-- Claim C5 counterexample: on the non-JSON backend response "hello",
the raised error message does not contain the raw response text (it goes
to the error log instead). -/
theorem generate_structured_error_lacks_raw_text :
    (generate_structured jsonLoadsNonJson (fun _ => .ok "hello") "p" none none).result
      = .error "Invalid JSON response from LLM: Expecting value: line 1 column 1 (char 0)" ∧
    containsSubstr "hello"
      "Invalid JSON response from LLM: Expecting value: line 1 column 1 (char 0)" = false ∧
    (generate_structured jsonLoadsNonJson (fun _ => .ok "hello") "p" none none).errorLog
      = ["Failed to parse JSON response: hello"] :=
  ⟨rfl, by decide, rfl⟩

/-- Claim C8 (amended): the factory returns the Ollama variant for
provider "ollama" and the Groq variant for "groq" with a non-empty key;
it raises ValueError "GROQ_API_KEY not configured" for "groq" with an
unset or empty key, NotImplementedError for "openai" (no OpenAI variant
exists), and ValueError "Unknown LLM provider: <name>" for any other
name; matching is on the lower-cased provider name. -/
theorem client_factory_selection (s : LLMSettings) :
    (pyLower s.LLM_PROVIDER = "ollama" → get_llm_client s = .ok .ollama) ∧
    (pyLower s.LLM_PROVIDER = "groq" → groqKeyFalsy s.GROQ_API_KEY = false →
      get_llm_client s = .ok .groq) ∧
    (pyLower s.LLM_PROVIDER = "groq" → groqKeyFalsy s.GROQ_API_KEY = true →
      get_llm_client s = .error (.valueError "GROQ_API_KEY not configured")) ∧
    (pyLower s.LLM_PROVIDER = "openai" →
      get_llm_client s = .error (.notImplementedError "OpenAI client not yet implemented")) ∧
    (pyLower s.LLM_PROVIDER ≠ "ollama" → pyLower s.LLM_PROVIDER ≠ "groq" →
      pyLower s.LLM_PROVIDER ≠ "openai" →
      get_llm_client s = .error (.valueError ("Unknown LLM provider: " ++ pyLower s.LLM_PROVIDER))) := by
  refine ⟨?_, ?_, ?_, ?_, ?_⟩
  · intro h; simp [get_llm_client, h]
  · intro h hk; simp [get_llm_client, h, hk]
  · intro h hk; simp [get_llm_client, h, hk]
  · intro h; simp [get_llm_client, h]
  · intro h1 h2 h3; simp [get_llm_client, beq_iff_eq, h1, h2, h3]

theorem client_factory_selection_witness :
    get_llm_client { LLM_PROVIDER := "Ollama", GROQ_API_KEY := none } = .ok .ollama :=
  (client_factory_selection { LLM_PROVIDER := "Ollama", GROQ_API_KEY := none }).1 rfl

/-- Claim C8 counterexample: for the provider name "openai" with a
credential set, the factory does not return a backend variant; it raises
NotImplementedError. -/
theorem openai_with_credential_not_implemented :
    get_llm_client { LLM_PROVIDER := "openai", GROQ_API_KEY := some "sk-key" }
      = .error (.notImplementedError "OpenAI client not yet implemented") := rfl
